import Mathlib

/-!
Shallow embedding of the megalodon model-backend core
(`megalodon/backends.py` and `megalodon/megalodon_helper.py`)
and proofs about the claims of its specification.

Conventions of the embedding:
* machine floats (numpy float32/float64) are modelled as exact rationals `ℚ`;
* Python exceptions are modelled as values of the inductive `PyError`,
  and fallible code returns `Except PyError _`;
* Python dicts (including `defaultdict(list)`) are modelled as
  insertion-ordered association lists;
* external collaborators (the `flappy` compiled runtime, the `taiyaki`
  model loader, `h5py`) are modelled by passing their observable results
  as explicit arguments.
-/

/-- The Python exceptions that the modelled code can raise.
`megaError` is the repository's own `megalodon_helper.MegaError`; the
remaining constructors are builtin Python exceptions. -/
inductive PyError where
  | megaError (msg : String)
  | notImplementedError (msg : String)
  | attributeError (msg : String)
  | typeError (msg : String)
  | nameError (msg : String)
  | zeroDivisionError (msg : String)
  | assertionError (msg : String)
deriving DecidableEq

/-- `megalodon_helper.ALPHABET = 'ACGT'` (strings are modelled as `List Char`). -/
def ALPHABET : List Char := ['A', 'C', 'G', 'T']

/-- `backends.TAI_NAME = 'taiyaki'`. -/
def TAI_NAME : String := "taiyaki"

/-- `backends.FLP_NAME = 'flappie'`. -/
def FLP_NAME : String := "flappie"

/-- `megalodon_helper.nstate_to_nbase`:
`int(np.sqrt(0.25 + 0.5 * nstate) - 0.5)`.
For a natural argument `n` the real number `√(0.25 + n/2) − 0.5` equals
`(√(2n+1) − 1)/2` and is nonnegative, so Python's truncation `int(...)`
is the floor, computed here with `Nat.sqrt`; the lemma
`nstate_to_nbase_eq_floor` below proves this executable form equal to the
floor of the source's real-arithmetic formula. -/
def nstate_to_nbase (nstate : ℕ) : ℕ :=
  (Nat.sqrt (2 * nstate + 1) - 1) / 2

/-- `np.median` on a 1-D array: the middle element of the sorted data for
odd length, the mean of the two middle elements for even length
(`np.sort` is modelled by `List.insertionSort`, an equivalent stable
ascending sort). -/
def npMedian (data : List ℚ) : ℚ :=
  let s := List.insertionSort (· ≤ ·) data
  let n := data.length
  if n % 2 = 1 then s.getD (n / 2) 0
  else (s.getD (n / 2 - 1) 0 + s.getD (n / 2) 0) / 2

/-- `megalodon_helper.med_mad` specialised to the 1-D `axis=None` call used
by `extract_read_data`: the default `factor` (Python `None`) is `1.4826`,
`dmed` is the median of the data and `dmad` is `factor` times the median
of the absolute deviations from `dmed`. -/
def med_mad (data : List ℚ) (factor : Option ℚ) : ℚ × ℚ :=
  let f := factor.getD (14826 / 10000)
  let dmed := npMedian data
  let dmad := f * npMedian (data.map (fun x => |x - dmed|))
  (dmed, dmad)

/-- The normalization tail of `megalodon_helper.extract_read_data`
(lines 88-90), acting on the raw signal already extracted from the file:
`if scale: med, mad = med_mad(raw_sig); raw_sig = (raw_sig - med) / mad`.
Division by zero (a zero MAD) is not guarded in the source; in `ℚ` it
yields `0` where numpy would produce non-finite floats. -/
def extract_scaled (raw_sig : List ℚ) (scale : Bool) : List ℚ :=
  if scale then
    let mm := med_mad raw_sig Option.none
    raw_sig.map (fun x => (x - mm.1) / mm.2)
  else raw_sig

/-- The possible values of the Python local `read_id` in
`extract_read_data`: the initial `None`, the raw bytes returned by
`raw_slot.attrs.get('read_id')`, or the decoded string. -/
inductive ReadId where
  | pyNone
  | pyBytes (bs : List ℕ)
  | pyStr (s : List Char)
deriving DecidableEq

/-- Model of Python `bytes.decode()` restricted to the ASCII plane:
bytes below `0x80` decode to the corresponding characters, any byte
`≥ 0x80` makes the decode fail (as e.g. the byte `0xFF`, which is never
valid UTF-8, does in Python). -/
def bytes_decode (bs : List ℕ) : Option (List Char) :=
  if bs.all (fun b => b < 128) then some (bs.map Char.ofNat) else Option.none

/-- One Python statement `read_id = read_id.decode()` applied to the
current value of `read_id`: `None.decode()` raises `AttributeError`
(and so does `str.decode()` in Python 3), `bytes.decode()` either
succeeds or raises a decode error. -/
def decode_stmt (v : ReadId) : Except PyError ReadId :=
  match v with
  | ReadId.pyNone =>
      Except.error (PyError.attributeError "NoneType object has no attribute decode")
  | ReadId.pyBytes bs =>
      match bytes_decode bs with
      | some s => Except.ok (ReadId.pyStr s)
      | Option.none =>
          Except.error (PyError.typeError "UnicodeDecodeError: invalid start byte")
  | ReadId.pyStr _ =>
      Except.error (PyError.attributeError "str object has no attribute decode")

/-- The read-id block of `extract_read_data` (lines 80-85):
`read_id = None`; then inside `try`: `read_id = raw_slot.attrs.get('read_id')`
(modelled by `attr`, `None` when the attribute is missing) followed by
`read_id = read_id.decode()`; `except: pass` keeps whatever value
`read_id` holds when the decode statement raises. -/
def extract_read_id (attr : Option (List ℕ)) : ReadId :=
  let read_id := ReadId.pyNone
  let read_id := match attr with
    | some bs => ReadId.pyBytes bs
    | Option.none => read_id
  match decode_stmt read_id with
  | Except.ok v => v
  | Except.error _ => read_id

/-- Ceiling division on naturals: the exact value of
`np.ceil(num_proc / len(devices)).astype(int)` (Python true division
followed by ceiling, modelled exactly). -/
def ceil_div (a b : ℕ) : ℕ := (a + b - 1) / b

/-- `backends.ModelInfo.__init__` lines 79-83: start from
`np.repeat(base, D)` with `base = ceil(P / D)`, and if `base * D > P`
subtract `1` from the last `base * D − P` entries
(`procs_per_device[-(base*D - P):] -= 1`; a Python slice `arr[-k:]` with
`k ≥ len(arr)` is the whole array, which `List.drop (D - k)` with
truncated subtraction reproduces). -/
def procs_per_device (num_proc n_dev : ℕ) : List ℕ :=
  let base := ceil_div num_proc n_dev
  let arr := List.replicate n_dev base
  if num_proc < base * n_dev then
    let k := base * n_dev - num_proc
    arr.take (n_dev - k) ++ (arr.drop (n_dev - k)).map (fun x => x - 1)
  else arr

/-- `np.repeat(devices, procs_per_device)`: each `devices[i]` repeated
`procs_per_device[i]` times, in order. -/
def np_repeat (devs : List ℤ) (counts : List ℕ) : List ℤ :=
  ((devs.zip counts).map (fun p => List.replicate p.2 p.1)).flatten

/-- `np.cumsum` (inclusive prefix sums) starting from a running total. -/
def cumsum_from (acc : ℕ) : List ℕ → List ℕ
  | [] => []
  | x :: xs => (acc + x) :: cumsum_from (acc + x) xs

/-- `np.cumsum` on a list of naturals. -/
def cumsum (l : List ℕ) : List ℕ := cumsum_from 0 l

/-- `self.can_indices = np.cumsum(np.concatenate([[0], can_nmods[:-1] + 1]))`
(lines 41-42 and 114-115): prefix sums over `0` followed by
(modification count + 1) for every canonical base but the last. -/
def can_indices_of (can_nmods : List ℕ) : List ℕ :=
  cumsum (0 :: can_nmods.dropLast.map (fun x => x + 1))

/-- Appending a value to `d[k]` for a Python `defaultdict(list)` `d`:
if `k` is present its list grows at the end, otherwise `k` is inserted
at the end of the (insertion-ordered) dict with the one-element list. -/
def dd_append (acc : List (Char × List Char)) (k : Char) (v : Char) :
    List (Char × List Char) :=
  match acc with
  | [] => [(k, [v])]
  | (k', vs) :: rest =>
      if k' = k then (k, vs ++ [v]) :: rest else (k', vs) :: dd_append rest k v

/-- Python dict assignment `d[k] = v` on an insertion-ordered
association list: update in place if present, append otherwise. -/
def assoc_set (m : List (Char × ℕ)) (k : Char) (v : ℕ) : List (Char × ℕ) :=
  match m with
  | [] => [(k, v)]
  | (k', v') :: rest =>
      if k' = k then (k, v) :: rest else (k', v') :: assoc_set rest k v

/-- The result of `flappy.get_cat_mods()`: the compiled runtime's declared
per-canonical-base modification counts and its output alphabet. -/
structure FlappyMods where
  can_nmods : List ℕ
  output_alphabet : List Char
deriving DecidableEq

/-- The observable metadata of a loaded taiyaki model's final layer
(`tmp_model.sublayers[-1]`): its `size`, whether it is a
`GlobalNormFlipFlopCatMod` instance, and (for modification-aware layers)
its `output_alphabet`, `can_nmods` and `mod_long_names_conv.items()`. -/
structure TaiLayer where
  size : ℕ
  is_cat_mod : Bool
  output_alphabet : List Char
  can_nmods : List ℕ
  mod_long_names : List (List Char × List Char)
deriving DecidableEq

/-- The attribute state of a constructed `ModelInfo` object. Attributes
that only some construction paths assign are `Option`-valued, with
`Option.none` meaning the attribute was never set on that path (the
source sets attributes dynamically). -/
structure ModelInfoState where
  model_type : String
  name : Option String
  fn : Option String
  is_cat_mod : Bool
  output_alphabet : Option (List Char)
  can_alphabet : List Char
  can_indices : Option (List ℕ)
  mod_long_names : List (List Char × List Char)
  can_base_mod : Option (List (Char × List Char))
  can_base_mods : Option (List (Char × List Char))
  str_to_int_mod_labels : Option (List (Char × ℕ))
  n_mods : ℕ
  output_size : ℕ
  chunk_size : Option ℕ
  chunk_overlap : Option ℕ
  max_concur_chunks : Option ℕ
  devices : Option (List ℤ)
  process_devices : Option (List (Option ℤ))
deriving DecidableEq

/-- The loop of lines 50-55: walk the output alphabet; a symbol that is in
`can_bases` becomes the current canonical base, any other symbol is
appended to `can_base_mod[current canonical base]`. Referencing
`curr_can_base` before any canonical symbol was seen would be a Python
`NameError`. -/
def build_can_base_mod (can_bases : List Char) (curr : Option Char)
    (acc : List (Char × List Char)) :
    List Char → Except PyError (List (Char × List Char))
  | [] => Except.ok acc
  | b :: rest =>
      if b ∈ can_bases then build_can_base_mod can_bases (some b) acc rest
      else
        match curr with
        | some cb => build_can_base_mod can_bases curr (dd_append acc cb b) rest
        | Option.none =>
            Except.error (PyError.nameError "curr_can_base referenced before assignment")

/-- The flappie `r941_cat_mod` block of lines 35-55, i.e. the attribute
state reached just before line 56. Alphabet indices are read with `getD`;
for runtime-conforming metadata (as in every instantiation below) all
indices are in range, where Python list indexing would otherwise raise.
Note that the loop populates the attribute `can_base_mod` (no trailing
`s`), and that `can_base_mods` is not assigned anywhere in this block. -/
def flp_cat_mod_state (nm : String) (cm : FlappyMods) : Except PyError ModelInfoState :=
  let can_nmods := cm.can_nmods
  let output_alphabet := cm.output_alphabet
  let n_mods := can_nmods.sum
  let output_size := 41 + n_mods
  let can_indices := can_indices_of can_nmods
  let can_bases := can_indices.map (fun i => output_alphabet.getD i ' ')
  let mod_bases :=
    ((can_indices.zip can_nmods).map
      (fun p => (output_alphabet.drop (p.1 + 1)).take p.2)).flatten
  match build_can_base_mod can_bases Option.none [] output_alphabet with
  | Except.error e => Except.error e
  | Except.ok cbm =>
      Except.ok
        { model_type := FLP_NAME
          name := some nm
          fn := Option.none
          is_cat_mod := true
          output_alphabet := some output_alphabet
          can_alphabet := can_bases
          can_indices := some can_indices
          mod_long_names := mod_bases.map (fun b => ([b], [b]))
          can_base_mod := some cbm
          can_base_mods := Option.none
          str_to_int_mod_labels := Option.none
          n_mods := n_mods
          output_size := output_size
          chunk_size := Option.none
          chunk_overlap := Option.none
          max_concur_chunks := Option.none
          devices := Option.none
          process_devices := Option.none }

/-- Line 56, `self.can_base_mods = dict(self.can_base_mods)`, evaluated on
the state produced by `flp_cat_mod_state`: the right-hand side reads the
attribute `can_base_mods`, which the preceding loop never assigned (it
assigned `can_base_mod`), so the read raises `AttributeError`. If the
read had succeeded, line 64 would then set `process_devices` to
`[None] * num_proc`. -/
def flp_cat_mod_init (nm : String) (cm : FlappyMods) (num_proc : ℕ) :
    Except PyError ModelInfoState :=
  match flp_cat_mod_state nm cm with
  | Except.error e => Except.error e
  | Except.ok st =>
      match st.can_base_mods with
      | some d =>
          Except.ok { st with
            can_base_mods := some d
            process_devices := some (List.replicate num_proc Option.none) }
      | Option.none =>
          Except.error
            (PyError.attributeError "ModelInfo object has no attribute can_base_mods")

/-- The compiled-backend (`flappie`) arm of `ModelInfo.__init__`
(lines 22-64): `r941_5mC` is rejected outright, `r941_cat_mod` runs the
modification-aware block, any other name is a plain model with the fixed
alphabet, width 40 and no modifications; the compiled backend is
CPU-only, `process_devices = [None] * num_proc`. -/
def flp_init (nm : String) (cm : FlappyMods) (num_proc : ℕ) :
    Except PyError ModelInfoState :=
  if nm = "r941_5mC" then
    Except.error
      (PyError.notImplementedError "Naive modified base flip-flop models are not supported.")
  else if nm = "r941_cat_mod" then
    flp_cat_mod_init nm cm num_proc
  else
    Except.ok
      { model_type := FLP_NAME
        name := some nm
        fn := Option.none
        is_cat_mod := false
        output_alphabet := Option.none
        can_alphabet := ALPHABET
        can_indices := Option.none
        mod_long_names := []
        can_base_mod := Option.none
        can_base_mods := Option.none
        str_to_int_mod_labels := Option.none
        n_mods := 0
        output_size := 40
        chunk_size := Option.none
        chunk_overlap := Option.none
        max_concur_chunks := Option.none
        devices := Option.none
        process_devices := some (List.replicate num_proc Option.none) }

/-- The error message of lines 68-71 (string concatenation of the three
literals in the source). -/
def chunk_err_msg : String :=
  "Must provide chunk_size, chunk_overlap, max_concur_chunks in order to run the taiyaki base calling backend."

/-- The loop of lines 121-128: enumerate the output alphabet; a position
listed in `can_indices` starts a new canonical run (resetting the local
modification index to 0), any other symbol records
`str_to_int_mod_labels[base] = curr_mod_i` and is appended to
`can_base_mods[curr_can_base]`. -/
def tai_mod_loop (can_indices : List ℕ) (curr : Option Char) (mi : ℕ)
    (sti : List (Char × ℕ)) (cbm : List (Char × List Char)) (i : ℕ) :
    List Char → Except PyError (List (Char × ℕ) × List (Char × List Char))
  | [] => Except.ok (sti, cbm)
  | b :: rest =>
      if i ∈ can_indices then
        tai_mod_loop can_indices (some b) 0 sti cbm (i + 1) rest
      else
        match curr with
        | some cb =>
            tai_mod_loop can_indices curr (mi + 1)
              (assoc_set sti b mi) (dd_append cbm cb b) (i + 1) rest
        | Option.none =>
            Except.error (PyError.nameError "curr_can_base referenced before assignment")

/-- The trained-backend (`taiyaki`) arm of `ModelInfo.__init__`
(lines 65-139), with the loaded model's final layer supplied as `layer`:
the chunking parameters are checked first (lines 66-71, raising before
the device list is even touched); then `len(devices)` (a `TypeError` on
Python `None`, a `ZeroDivisionError` in `num_proc / len(devices)` when
the list is empty), the balanced process/device assignment with its
`assert`, and finally the final-layer dispatch: the
modification-aware block of lines 108-129, or the plain-model check
`nstate_to_nbase(size) != 4` of lines 130-138. -/
def tai_init (fn : String) (layer : TaiLayer) (devices : Option (List ℤ))
    (num_proc : ℕ) (chunk_size chunk_overlap max_concur_chunks : Option ℕ) :
    Except PyError ModelInfoState :=
  if chunk_size.isNone || chunk_overlap.isNone || max_concur_chunks.isNone then
    Except.error (PyError.notImplementedError chunk_err_msg)
  else
    match devices with
    | Option.none =>
        Except.error (PyError.typeError "object of type NoneType has no len")
    | some devs =>
        if devs.length = 0 then
          Except.error (PyError.zeroDivisionError "division by zero")
        else
          let ppd := procs_per_device num_proc devs.length
          if ppd.sum ≠ num_proc then
            Except.error (PyError.assertionError "sum of procs_per_device != num_proc")
          else
            let pd := (np_repeat devs ppd).map some
            if layer.is_cat_mod then
              let output_alphabet := layer.output_alphabet
              let can_indices := can_indices_of layer.can_nmods
              let can_alphabet := can_indices.map (fun i => output_alphabet.getD i ' ')
              match tai_mod_loop can_indices Option.none 0 [] [] 0 output_alphabet with
              | Except.error e => Except.error e
              | Except.ok (sti, cbm) =>
                  Except.ok
                    { model_type := TAI_NAME
                      name := Option.none
                      fn := some fn
                      is_cat_mod := true
                      output_alphabet := some output_alphabet
                      can_alphabet := can_alphabet
                      can_indices := some can_indices
                      mod_long_names := layer.mod_long_names
                      can_base_mod := Option.none
                      can_base_mods := some cbm
                      str_to_int_mod_labels := some sti
                      n_mods := layer.mod_long_names.length
                      output_size := layer.size
                      chunk_size := chunk_size
                      chunk_overlap := chunk_overlap
                      max_concur_chunks := max_concur_chunks
                      devices := some devs
                      process_devices := some pd }
            else
              if nstate_to_nbase layer.size ≠ 4 then
                Except.error
                  (PyError.notImplementedError
                    "Naive modified base flip-flop models are not supported.")
              else
                Except.ok
                  { model_type := TAI_NAME
                    name := Option.none
                    fn := some fn
                    is_cat_mod := false
                    output_alphabet := some ALPHABET
                    can_alphabet := ALPHABET
                    can_indices := Option.none
                    mod_long_names := []
                    can_base_mod := Option.none
                    can_base_mods := Option.none
                    str_to_int_mod_labels := some []
                    n_mods := 0
                    output_size := layer.size
                    chunk_size := chunk_size
                    chunk_overlap := chunk_overlap
                    max_concur_chunks := max_concur_chunks
                    devices := some devs
                    process_devices := some pd }

/-- `ModelInfo.__init__` top-level dispatch (lines 22, 65 and 140-141):
the compiled arm when a flappie model name is given, the trained arm
when a taiyaki model file is given, and
`MegaError('Invalid model specification.')` when neither is. The results
of the external collaborators (`flappy.get_cat_mods()` and the loaded
taiyaki final layer) are passed as `cm` and `layer`. -/
def model_info_init (flappie_model_name taiyaki_model_fn : Option String)
    (cm : FlappyMods) (layer : TaiLayer) (devices : Option (List ℤ))
    (num_proc : ℕ) (chunk_size chunk_overlap max_concur_chunks : Option ℕ) :
    Except PyError ModelInfoState :=
  match flappie_model_name with
  | some nm => flp_init nm cm num_proc
  | Option.none =>
      match taiyaki_model_fn with
      | some fn =>
          tai_init fn layer devices num_proc chunk_size chunk_overlap max_concur_chunks
      | Option.none => Except.error (PyError.megaError "Invalid model specification.")

/-- `Except.isOk` specialised to the constructor result. -/
def init_is_ok : Except PyError ModelInfoState → Bool
  | Except.ok _ => true
  | Except.error _ => false

/-- Whether a constructor result is a raised `MegaError`. -/
def init_is_mega_error : Except PyError ModelInfoState → Bool
  | Except.error (PyError.megaError _) => true
  | _ => false

/-- A transition-weight result: either a single undivided matrix or an
already-split (canonical, modification) pair. Matrices are modelled as
lists of rows, so `m[:, :n]` is `m.map (List.take n)` and `m[:, n:]` is
`m.map (List.drop n)`. -/
abbrev TransResult := List (List ℚ) ⊕ (List (List ℚ) × List (List ℚ))

/-- The possible outcomes of the external chunked-inference call
`tai_run_model(...)` inside the `try` of lines 165-168: a returned
matrix, or a raised `AttributeError` (missing entry point on the model),
or a raised `RuntimeError` (resource exhaustion). -/
inductive TaiOutcome where
  | ok (tw : List (List ℚ))
  | attrError
  | runtimeError
deriving DecidableEq

/-- `ModelInfo.run_model` (lines 159-182), with the external backend
calls supplied as arguments: the flappie arm returns whatever
`flappy.run_network` produced (`flp_result`); the taiyaki arm maps
`AttributeError` to `MegaError('Out of date or incompatible model')` and
`RuntimeError` to `MegaError('Likely out of memory error.')`, and when
`n_can_state` is supplied splits the returned matrix by column into the
`[0, n)` and `[n, end)` parts (each `np.ascontiguousarray(...)` makes an
independent copy, which list values model directly); any other
`model_type` raises `MegaError('Invalid model type.')`. -/
def run_model (model_type : String) (flp_result : TransResult)
    (tai_outcome : TaiOutcome) (n_can_state : Option ℕ) :
    Except PyError TransResult :=
  if model_type = FLP_NAME then Except.ok flp_result
  else if model_type = TAI_NAME then
    match tai_outcome with
    | TaiOutcome.attrError =>
        Except.error (PyError.megaError "Out of date or incompatible model")
    | TaiOutcome.runtimeError =>
        Except.error (PyError.megaError "Likely out of memory error.")
    | TaiOutcome.ok tw =>
        match n_can_state with
        | Option.none => Except.ok (Sum.inl tw)
        | some n =>
            Except.ok (Sum.inr (tw.map (List.take n), tw.map (List.drop n)))
  else Except.error (PyError.megaError "Invalid model type.")

/-- A concrete conforming result of `flappy.get_cat_mods()` for the
`r941_cat_mod` scenario: per-canonical modification counts `[1, 0, 2, 0]`
over canonical bases `ACGT`, so the declared output alphabet is
`A`, its modification `Z`, `C`, `G`, its modifications `Y` and `X`, `T`
(each canonical base immediately followed by its modification symbols,
the modification letters drawn from the tail of `MOD_ALPHABET`). -/
def r941_cat_mod_runtime : FlappyMods :=
  ⟨[1, 0, 2, 0], ['A', 'Z', 'C', 'G', 'Y', 'X', 'T']⟩

/-- A placeholder taiyaki final layer for calls that never reach the
taiyaki arm. -/
def unused_layer : TaiLayer := ⟨0, false, [], [], []⟩

/-! Helper lemmas about ceiling division and the device assignment. -/

theorem ceil_div_mul_ge (P D : ℕ) (hD : 0 < D) : P ≤ ceil_div P D * D := by
  have h1 := Nat.div_add_mod (P + D - 1) D
  have h2 := Nat.mod_lt (P + D - 1) hD
  unfold ceil_div
  rw [Nat.mul_comm]
  omega

theorem ceil_div_mul_le (P D : ℕ) : ceil_div P D * D ≤ P + D - 1 := by
  have h1 := Nat.div_add_mod (P + D - 1) D
  unfold ceil_div
  rw [Nat.mul_comm]
  omega

theorem ceil_div_of_dvd (P D : ℕ) (hD : 0 < D) (h : D ∣ P) : ceil_div P D = P / D := by
  obtain ⟨c, rfl⟩ := h
  unfold ceil_div
  have e : D * c + D - 1 = (D - 1) + D * c := by omega
  rw [e, Nat.add_mul_div_left _ _ hD, Nat.div_eq_of_lt (by omega),
    Nat.mul_div_cancel_left _ hD, Nat.zero_add]

theorem ceil_div_of_not_dvd (P D : ℕ) (hD : 0 < D) (h : ¬ D ∣ P) :
    ceil_div P D = P / D + 1 := by
  have hr : P % D ≠ 0 := fun hz => h (Nat.dvd_of_mod_eq_zero hz)
  have h1 := Nat.div_add_mod P D
  have h2 := Nat.mod_lt P hD
  have hx : D * (P / D + 1) = D * (P / D) + D := by ring
  have e : P + D - 1 = (P % D - 1) + D * (P / D + 1) := by omega
  unfold ceil_div
  rw [e, Nat.add_mul_div_left _ _ hD, Nat.div_eq_of_lt (by omega), Nat.zero_add]

theorem ceil_div_pos (P D : ℕ) (hD : 0 < D) (hP : 0 < P) : 0 < ceil_div P D := by
  by_contra hc
  have h0 : ceil_div P D = 0 := by omega
  have := ceil_div_mul_ge P D hD
  rw [h0] at this
  omega

theorem div_le_ceil_div (P D : ℕ) (hD : 0 < D) : P / D ≤ ceil_div P D :=
  Nat.div_le_div_right (by omega)

theorem procs_per_device_eq (P D : ℕ) (hD : 0 < D) (hP : 0 < P) :
    procs_per_device P D =
      List.replicate (D - (ceil_div P D * D - P)) (ceil_div P D) ++
        List.replicate (ceil_div P D * D - P) (ceil_div P D - 1) := by
  have hge := ceil_div_mul_ge P D hD
  have hle := ceil_div_mul_le P D
  unfold procs_per_device
  by_cases h : P < ceil_div P D * D
  · rw [if_pos h]
    simp only [List.take_replicate, List.drop_replicate, List.map_replicate]
    have e1 : (D - (ceil_div P D * D - P)) ⊓ D = D - (ceil_div P D * D - P) := by
      apply Nat.min_eq_left; omega
    have e2 : D - (D - (ceil_div P D * D - P)) = ceil_div P D * D - P := by omega
    rw [e1, e2]
  · rw [if_neg h]
    have e0 : ceil_div P D * D - P = 0 := by omega
    rw [e0]
    simp

theorem procs_per_device_length (P D : ℕ) : (procs_per_device P D).length = D := by
  unfold procs_per_device
  by_cases h : P < ceil_div P D * D
  · rw [if_pos h]
    simp
  · rw [if_neg h]
    simp

theorem procs_per_device_bounds (P D c : ℕ) (hD : 0 < D) (hP : 0 < P)
    (hc : c ∈ procs_per_device P D) :
    P / D ≤ c ∧ c ≤ ceil_div P D ∧ (D ∣ P → c = P / D) := by
  rw [procs_per_device_eq P D hD hP] at hc
  rcases List.mem_append.mp hc with hm | hm
  · have hcv := List.eq_of_mem_replicate hm
    subst hcv
    refine ⟨div_le_ceil_div P D hD, le_refl _, fun hdvd => ceil_div_of_dvd P D hD hdvd⟩
  · have hcv := List.eq_of_mem_replicate hm
    have hk : ceil_div P D * D - P ≠ 0 := by
      intro h0
      rw [h0] at hm
      simp at hm
    have hnd : ¬ D ∣ P := by
      intro hdvd
      apply hk
      rw [ceil_div_of_dvd P D hD hdvd, Nat.div_mul_cancel hdvd]
      omega
    have hcd := ceil_div_of_not_dvd P D hD hnd
    subst hcv
    refine ⟨by omega, by omega, fun hdvd => absurd hdvd hnd⟩

theorem procs_per_device_sum (P D : ℕ) (hD : 0 < D) (hP : 0 < P) :
    (procs_per_device P D).sum = P := by
  have hge := ceil_div_mul_ge P D hD
  have hle := ceil_div_mul_le P D
  have hb := ceil_div_pos P D hD hP
  rw [procs_per_device_eq P D hD hP, List.sum_append, List.sum_replicate, List.sum_replicate,
    smul_eq_mul, smul_eq_mul]
  set b := ceil_div P D with hbdef
  set k := b * D - P with hkdef
  have hkD : k ≤ D := by omega
  have e1 : (D - k) * b = D * b - k * b := Nat.sub_mul D k b
  have h5 : k * b ≤ D * b := Nat.mul_le_mul_right b hkD
  have h6 : k ≤ k * b := Nat.le_mul_of_pos_right k hb
  have hcomm : D * b = b * D := Nat.mul_comm D b
  have e2 : k * (b - 1) = k * b - k := by
    rw [Nat.mul_sub]
    omega
  rw [e1, e2]
  omega

theorem np_repeat_length (devs : List ℤ) (counts : List ℕ)
    (h : devs.length = counts.length) : (np_repeat devs counts).length = counts.sum := by
  induction devs generalizing counts with
  | nil =>
      cases counts with
      | nil => rfl
      | cons c cs => simp at h
  | cons d ds ih =>
      cases counts with
      | nil => simp at h
      | cons c cs =>
          simp only [np_repeat, List.zip_cons_cons, List.map_cons, List.flatten_cons,
            List.length_append, List.length_replicate, List.sum_cons]
          have := ih cs (by simpa using h)
          simp only [np_repeat] at this
          omega

theorem np_repeat_mem (devs : List ℤ) (counts : List ℕ) (x : ℤ)
    (hx : x ∈ np_repeat devs counts) : x ∈ devs := by
  induction devs generalizing counts with
  | nil =>
      cases counts <;> simp [np_repeat] at hx
  | cons d ds ih =>
      cases counts with
      | nil => simp [np_repeat] at hx
      | cons c cs =>
          simp only [np_repeat, List.zip_cons_cons, List.map_cons, List.flatten_cons,
            List.mem_append] at hx
          rcases hx with hx | hx
          · rw [List.eq_of_mem_replicate hx]
            exact List.mem_cons_self d ds
          · exact List.mem_cons_of_mem d (ih cs hx)

/-! Helper lemmas about `Nat.sqrt`, `nstate_to_nbase` and medians of
constant sequences. -/

theorem sqrt_121 : Nat.sqrt 121 = 11 := by
  have e : (121 : ℕ) = 11 ^ 2 := by norm_num
  rw [e, Nat.sqrt_eq']

theorem sqrt_81 : Nat.sqrt 81 = 9 := by
  have e : (81 : ℕ) = 9 ^ 2 := by norm_num
  rw [e, Nat.sqrt_eq']

theorem nbase_60 : nstate_to_nbase 60 = 5 := by
  unfold nstate_to_nbase
  norm_num [sqrt_121]

theorem nbase_40 : nstate_to_nbase 40 = 4 := by
  unfold nstate_to_nbase
  norm_num [sqrt_81]

theorem floor_half_sub_half (s : ℝ) (k : ℕ) (h1 : (k : ℝ) ≤ s)
    (h2 : s < (k : ℝ) + 1) (hk : 1 ≤ k) :
    ⌊s / 2 - 0.5⌋ = (((k - 1) / 2 : ℕ) : ℤ) := by
  have hq : k = 2 * ((k - 1) / 2) + (k - 1) % 2 + 1 := by omega
  have hr : (k - 1) % 2 < 2 := Nat.mod_lt (k - 1) (by omega)
  have hkr : (k : ℝ) = 2 * (((k - 1) / 2 : ℕ) : ℝ) + (((k - 1) % 2 : ℕ) : ℝ) + 1 := by
    exact_mod_cast hq
  have hrr : (((k - 1) % 2 : ℕ) : ℝ) ≤ 1 := by
    exact_mod_cast Nat.lt_succ_iff.mp hr
  have hr0 : (0 : ℝ) ≤ (((k - 1) % 2 : ℕ) : ℝ) := by positivity
  have hcast : ((((k - 1) / 2 : ℕ) : ℤ) : ℝ) = (((k - 1) / 2 : ℕ) : ℝ) := by norm_cast
  have h05 : (0.5 : ℝ) = 1 / 2 := by norm_num
  rw [Int.floor_eq_iff]
  constructor
  · rw [hcast, h05]
    linarith
  · rw [hcast, h05]
    linarith

/-- Faithfulness of the executable `nstate_to_nbase`: it equals the floor
of the source's real-arithmetic formula `√(0.25 + 0.5·n) − 0.5`. -/
theorem nstate_to_nbase_eq_floor (n : ℕ) :
    ((nstate_to_nbase n : ℤ)) = ⌊Real.sqrt (0.25 + 0.5 * (n : ℝ)) - 0.5⌋ := by
  have h2n : (0 : ℝ) ≤ ((2 * n + 1 : ℕ) : ℝ) := by positivity
  have e1 : (0.25 + 0.5 * (n : ℝ)) = ((2 * n + 1 : ℕ) : ℝ) / 4 := by
    push_cast
    norm_num
    ring
  have e2 : Real.sqrt (((2 * n + 1 : ℕ) : ℝ) / 4) = Real.sqrt ((2 * n + 1 : ℕ) : ℝ) / 2 := by
    rw [show ((2 * n + 1 : ℕ) : ℝ) / 4 = (Real.sqrt ((2 * n + 1 : ℕ) : ℝ) / 2) ^ 2 by
      rw [div_pow, Real.sq_sqrt h2n]
      norm_num]
    exact Real.sqrt_sq (by positivity)
  have hk1 : ((Nat.sqrt (2 * n + 1) : ℝ)) ≤ Real.sqrt ((2 * n + 1 : ℕ) : ℝ) := by
    rw [Real.le_sqrt (by positivity) h2n]
    exact_mod_cast Nat.sqrt_le' (2 * n + 1)
  have hk2 : Real.sqrt ((2 * n + 1 : ℕ) : ℝ) < (Nat.sqrt (2 * n + 1) : ℝ) + 1 := by
    have h := Real.sqrt_lt' (x := ((2 * n + 1 : ℕ) : ℝ))
      (y := (Nat.sqrt (2 * n + 1) : ℝ) + 1) (by positivity)
    rw [h]
    exact_mod_cast Nat.lt_succ_sqrt' (2 * n + 1)
  have hk0 : 1 ≤ Nat.sqrt (2 * n + 1) := Nat.le_sqrt.mpr (by omega)
  rw [e1, e2, floor_half_sub_half _ _ hk1 hk2 hk0]
  rfl

theorem insertionSort_replicate (n : ℕ) (c : ℚ) :
    List.insertionSort (· ≤ ·) (List.replicate n c) = List.replicate n c := by
  apply List.eq_replicate_iff.mpr
  constructor
  · rw [(List.perm_insertionSort (· ≤ ·) (List.replicate n c)).length_eq, List.length_replicate]
  · intro b hb
    exact List.eq_of_mem_replicate
      ((List.perm_insertionSort (· ≤ ·) (List.replicate n c)).mem_iff.mp hb)

theorem getD_replicate_of_lt (n i : ℕ) (c d : ℚ) (h : i < n) :
    (List.replicate n c).getD i d = c := by
  induction n generalizing i with
  | zero => omega
  | succ m ih =>
      cases i with
      | zero => rfl
      | succ j =>
          rw [List.replicate_succ]
          exact ih j (by omega)

theorem npMedian_replicate (n : ℕ) (c : ℚ) (h : 0 < n) :
    npMedian (List.replicate n c) = c := by
  unfold npMedian
  rw [insertionSort_replicate, List.length_replicate]
  by_cases hp : n % 2 = 1
  · rw [if_pos hp, getD_replicate_of_lt n _ c 0 (by omega)]
  · rw [if_neg hp, getD_replicate_of_lt n _ c 0 (by omega),
      getD_replicate_of_lt n _ c 0 (by omega)]
    ring

/-! The claims. -/

/-- Claim C1, counterexample to the claim as stated: constructing a
`ModelInfo` for the compiled backend with model name `r941_cat_mod` and
declared per-canonical modification counts `[1, 0, 2, 0]` over `ACGT`
does not succeed: line 56 reads the never-assigned attribute
`can_base_mods` (the loop populated `can_base_mod`) and construction
raises `AttributeError`, which in particular is not the claimed
successful construction. -/
theorem flp_cat_mod_construction_crashes :
    model_info_init (some "r941_cat_mod") Option.none r941_cat_mod_runtime unused_layer
        Option.none 1 Option.none Option.none Option.none =
      Except.error (PyError.attributeError "ModelInfo object has no attribute can_base_mods") :=
  rfl

/-- Claim C1, amended: with counts `[1, 0, 2, 0]` over `ACGT` the state
computed by lines 35-55 has an output alphabet of length 7, canonical
alphabet `ACGT`, `n_mods = 3` and `output_size = 41 + 3 = 44`, and its
(typo-named) `can_base_mod` mapping holds exactly 1 modification symbol
for `A` and exactly 2 for `G` (the base with declared count 2) and none
for `C` or `T`; construction then fails at line 56 with an
`AttributeError` on the misspelled `can_base_mods` attribute. -/
theorem flp_cat_mod_fields :
    (flp_cat_mod_state "r941_cat_mod" r941_cat_mod_runtime).toOption.map
        (fun st => (st.output_alphabet.getD []).length) = some 7 ∧
    (flp_cat_mod_state "r941_cat_mod" r941_cat_mod_runtime).toOption.map
        (fun st => st.can_alphabet) = some ['A', 'C', 'G', 'T'] ∧
    (flp_cat_mod_state "r941_cat_mod" r941_cat_mod_runtime).toOption.map
        (fun st => st.can_base_mod) = some (some [('A', ['Z']), ('G', ['Y', 'X'])]) ∧
    (flp_cat_mod_state "r941_cat_mod" r941_cat_mod_runtime).toOption.map
        (fun st => st.n_mods) = some 3 ∧
    (flp_cat_mod_state "r941_cat_mod" r941_cat_mod_runtime).toOption.map
        (fun st => st.output_size) = some 44 ∧
    model_info_init (some "r941_cat_mod") Option.none r941_cat_mod_runtime unused_layer
        Option.none 1 Option.none Option.none Option.none =
      Except.error (PyError.attributeError "ModelInfo object has no attribute can_base_mods") :=
  ⟨rfl, rfl, rfl, rfl, rfl, rfl⟩

/-- Claim C2: for every sample sequence `S`, `extract_read_data` with
normalization requested returns `(S - m) / s` with `m` the median of `S`
and `s` equal to `1.4826` times the median of the absolute deviations
from `m`; with normalization not requested it returns the raw sequence
unchanged. -/
theorem extract_read_data_normalization (S : List ℚ) :
    extract_scaled S true =
      S.map (fun x =>
        (x - npMedian S) /
          ((14826 / 10000) * npMedian (S.map (fun y => |y - npMedian S|)))) ∧
    extract_scaled S false = S := by
  constructor
  · simp [extract_scaled, med_mad]
  · rfl

/-- Claim C3: for every process count `P ≥ 1` and non-empty device list,
the trained-backend device assignment has length exactly `P`, uses only
ids from the device list, gives every device between `⌊P/D⌋` and `⌈P/D⌉`
processes (all exactly `P/D` when `D` divides `P`), and the asserted
total of the per-device counts equals `P`. -/
theorem device_assignment_balanced (devices : List ℤ) (P : ℕ)
    (hP : 0 < P) (hne : devices ≠ []) :
    (np_repeat devices (procs_per_device P devices.length)).length = P ∧
    (∀ d, d ∈ np_repeat devices (procs_per_device P devices.length) → d ∈ devices) ∧
    (∀ c, c ∈ procs_per_device P devices.length →
        P / devices.length ≤ c ∧ c ≤ ceil_div P devices.length) ∧
    (devices.length ∣ P →
        ∀ c, c ∈ procs_per_device P devices.length → c = P / devices.length) ∧
    (procs_per_device P devices.length).sum = P := by
  have hD : 0 < devices.length := List.length_pos.mpr hne
  refine ⟨?_, ?_, ?_, ?_, ?_⟩
  · rw [np_repeat_length devices _ (procs_per_device_length P devices.length).symm]
    exact procs_per_device_sum P devices.length hD hP
  · exact fun d hd => np_repeat_mem devices _ d hd
  · exact fun c hc => ⟨(procs_per_device_bounds P devices.length c hD hP hc).1,
      (procs_per_device_bounds P devices.length c hD hP hc).2.1⟩
  · exact fun hdvd c hc => (procs_per_device_bounds P devices.length c hD hP hc).2.2 hdvd
  · exact procs_per_device_sum P devices.length hD hP

/-- Witness for C3 at `P = 5`, `devices = [0, 1]`. -/
theorem device_assignment_balanced_witness :
    (0 : ℕ) < 5 ∧ ([0, 1] : List ℤ) ≠ [] ∧
    (np_repeat [0, 1] (procs_per_device 5 ([0, 1] : List ℤ).length)).length = 5 ∧
    (procs_per_device 5 ([0, 1] : List ℤ).length).sum = 5 :=
  ⟨by decide, by decide, (device_assignment_balanced [0, 1] 5 (by decide) (by decide)).1,
    (device_assignment_balanced [0, 1] 5 (by decide) (by decide)).2.2.2.2⟩

/-- Claim C4: on the trained path with a canonical-state-count `n`,
`run_model` returns the pair of the `[0, n)` columns and the `[n, end)`
columns of the returned matrix, and concatenating the pair by column
reproduces the original matrix exactly. -/
theorem run_model_split_concat (tw : List (List ℚ)) (n : ℕ) (fr : TransResult) :
    run_model TAI_NAME fr (TaiOutcome.ok tw) (some n) =
      Except.ok (Sum.inr (tw.map (List.take n), tw.map (List.drop n))) ∧
    List.zipWith (fun a b => a ++ b) (tw.map (List.take n)) (tw.map (List.drop n)) = tw := by
  constructor
  · rfl
  · induction tw with
    | nil => rfl
    | cons r rs ih => simp only [List.map_cons, List.zipWith_cons_cons, ih,
        List.take_append_drop]

/-- Claim C5, counterexample to the claim as stated: a trained plain model
whose output size 60 gives a derived base count of 5 ≠ 4 makes
construction fail with `NotImplementedError`, not with the claimed
`MegaError` (a `MegaError` is the distinct `PyError.megaError`
constructor, and `init_is_mega_error` is `false` here). -/
theorem tai_plain_check_not_mega_error :
    model_info_init Option.none (some "model.checkpoint") ⟨[], []⟩ ⟨60, false, [], [], []⟩
        (some [0]) 1 (some 1000) (some 100) (some 10) =
      Except.error (PyError.notImplementedError
        "Naive modified base flip-flop models are not supported.") ∧
    init_is_mega_error (model_info_init Option.none (some "model.checkpoint") ⟨[], []⟩
        ⟨60, false, [], [], []⟩ (some [0]) 1 (some 1000) (some 100) (some 10)) = false := by
  have hppd : procs_per_device 1 1 = [1] := rfl
  constructor
  · simp [model_info_init, tai_init, hppd, nbase_60]
  · simp [model_info_init, tai_init, hppd, nbase_60, init_is_mega_error]

/-- Claim C5, amended: for a trained plain (non-modification-aware) model
with final-layer output size `s`, construction fails fast with a
`NotImplementedError` (message `Naive modified base flip-flop models are
not supported.`) whenever `⌊√(0.25 + s/2) − 0.5⌋ ≠ 4`, and does not
raise on this check when the derived base count is exactly 4. -/
theorem tai_plain_nbase_check (s : ℕ) (cm : FlappyMods) :
    (nstate_to_nbase s ≠ 4 →
      model_info_init Option.none (some "model.checkpoint") cm ⟨s, false, [], [], []⟩
          (some [0]) 1 (some 1000) (some 100) (some 10) =
        Except.error (PyError.notImplementedError
          "Naive modified base flip-flop models are not supported.")) ∧
    (nstate_to_nbase s = 4 →
      init_is_ok (model_info_init Option.none (some "model.checkpoint") cm
          ⟨s, false, [], [], []⟩ (some [0]) 1 (some 1000) (some 100) (some 10)) = true) := by
  have hppd : procs_per_device 1 1 = [1] := rfl
  constructor
  · intro h
    simp [model_info_init, tai_init, hppd, h]
  · intro h
    simp [model_info_init, tai_init, hppd, h, init_is_ok]

/-- Witness for C5 at output sizes 60 (derived base count 5, rejected)
and 40 (derived base count 4, accepted). -/
theorem tai_plain_nbase_check_witness :
    nstate_to_nbase 60 ≠ 4 ∧ nstate_to_nbase 40 = 4 ∧
    model_info_init Option.none (some "model.checkpoint") ⟨[], []⟩ ⟨60, false, [], [], []⟩
        (some [0]) 1 (some 1000) (some 100) (some 10) =
      Except.error (PyError.notImplementedError
        "Naive modified base flip-flop models are not supported.") ∧
    init_is_ok (model_info_init Option.none (some "model.checkpoint") ⟨[], []⟩
        ⟨40, false, [], [], []⟩ (some [0]) 1 (some 1000) (some 100) (some 10)) = true :=
  ⟨by rw [nbase_60]; decide, nbase_40,
    (tai_plain_nbase_check 60 ⟨[], []⟩).1 (by rw [nbase_60]; decide),
    (tai_plain_nbase_check 40 ⟨[], []⟩).2 nbase_40⟩

/-- Claim C6, counterexample to the claim as stated: with the read-id
attribute present but holding the undecodable byte `0xFF`, the decode
step fails and `extract_read_data` returns the raw (undecoded) bytes
value, not the claimed absent marker `None`. -/
theorem read_id_decode_failure_keeps_bytes :
    extract_read_id (some [255]) = ReadId.pyBytes [255] ∧
    extract_read_id (some [255]) ≠ ReadId.pyNone := by
  constructor
  · rfl
  · decide

/-- Claim C6, amended: the read-id block never fails the read; with the
attribute missing the identifier is `None` (the `.decode()` call on
`None` raises and `except: pass` keeps the `None`), with the attribute
present and decodable it is the decoded string, and with the attribute
present but undecodable it is the raw undecoded bytes value (the
rebinding `read_id = attrs.get(...)` already happened when the decode
raises). -/
theorem read_id_best_effort (attr : Option (List ℕ)) :
    (attr = Option.none → extract_read_id attr = ReadId.pyNone) ∧
    (∀ bs, attr = some bs → bytes_decode bs = Option.none →
        extract_read_id attr = ReadId.pyBytes bs) ∧
    (∀ bs s, attr = some bs → bytes_decode bs = some s →
        extract_read_id attr = ReadId.pyStr s) := by
  refine ⟨fun h => by subst h; rfl, fun bs h hd => ?_, fun bs s h hd => ?_⟩
  · subst h
    simp [extract_read_id, decode_stmt, hd]
  · subst h
    simp [extract_read_id, decode_stmt, hd]

/-- Witness for C6 at a missing attribute. -/
theorem read_id_best_effort_witness :
    (Option.none : Option (List ℕ)) = Option.none ∧
    extract_read_id Option.none = ReadId.pyNone :=
  ⟨rfl, (read_id_best_effort Option.none).1 rfl⟩

/-- Claim C7: on the trained path `run_model` maps an `AttributeError`
from the chunked-inference call to
`MegaError('Out of date or incompatible model')` and a `RuntimeError` to
`MegaError('Likely out of memory error.')`, and a `ModelInfo` whose
backend kind is neither the compiled nor the trained kind raises
`MegaError('Invalid model type.')`. -/
theorem run_model_error_mapping (fr : TransResult) (o : TaiOutcome) (n : Option ℕ)
    (mt : String) (h1 : mt ≠ FLP_NAME) (h2 : mt ≠ TAI_NAME) :
    run_model TAI_NAME fr TaiOutcome.attrError n =
      Except.error (PyError.megaError "Out of date or incompatible model") ∧
    run_model TAI_NAME fr TaiOutcome.runtimeError n =
      Except.error (PyError.megaError "Likely out of memory error.") ∧
    run_model mt fr o n = Except.error (PyError.megaError "Invalid model type.") := by
  refine ⟨rfl, rfl, ?_⟩
  simp [run_model, h1, h2]

/-- Witness for C7 at the unknown backend kind `keras`. -/
theorem run_model_error_mapping_witness :
    ("keras" : String) ≠ FLP_NAME ∧ ("keras" : String) ≠ TAI_NAME ∧
    run_model "keras" (Sum.inl []) (TaiOutcome.ok []) Option.none =
      Except.error (PyError.megaError "Invalid model type.") :=
  ⟨by decide, by decide,
    (run_model_error_mapping (Sum.inl []) (TaiOutcome.ok []) Option.none "keras"
      (by decide) (by decide)).2.2⟩

/-- Claim C8: constructing on the trained path with any of `chunk_size`,
`chunk_overlap` or `max_concur_chunks` absent fails before any device
allocation is performed — the theorem holds for every `devices` argument
including the Python `None` (`Option.none`), so the device list is never
consulted and no assignment is produced — and constructing with neither
a compiled-model name nor a trained-model file raises
`MegaError('Invalid model specification.')`. -/
theorem init_validates_specification (fn : String) (cm : FlappyMods) (layer : TaiLayer)
    (devices : Option (List ℤ)) (P : ℕ) (cs co mcc : Option ℕ) :
    (cs = Option.none ∨ co = Option.none ∨ mcc = Option.none →
      model_info_init Option.none (some fn) cm layer devices P cs co mcc =
        Except.error (PyError.notImplementedError chunk_err_msg)) ∧
    model_info_init Option.none Option.none cm layer devices P cs co mcc =
      Except.error (PyError.megaError "Invalid model specification.") := by
  constructor
  · intro h
    rcases h with h | h | h <;> subst h <;> simp [model_info_init, tai_init]
  · rfl

/-- Witness for C8: chunk size absent, device list the Python `None`. -/
theorem init_validates_specification_witness :
    ((Option.none : Option ℕ) = Option.none ∨ (some 100 : Option ℕ) = Option.none ∨
      (some 10 : Option ℕ) = Option.none) ∧
    model_info_init Option.none (some "model.checkpoint") ⟨[], []⟩ ⟨0, false, [], [], []⟩
        Option.none 7 Option.none (some 100) (some 10) =
      Except.error (PyError.notImplementedError chunk_err_msg) :=
  ⟨Or.inl rfl,
    (init_validates_specification "model.checkpoint" ⟨[], []⟩ ⟨0, false, [], [], []⟩
      Option.none 7 Option.none (some 100) (some 10)).1 (Or.inl rfl)⟩

/-- Claim C9: `nstate_to_nbase` is an exact left inverse of the flip-flop
state-count map `b ↦ 2·b·(b+1)` on positive base counts. -/
theorem nstate_to_nbase_flipflop (b : ℕ) (h : 0 < b) :
    nstate_to_nbase (2 * b * (b + 1)) = b := by
  unfold nstate_to_nbase
  have e : 2 * (2 * b * (b + 1)) + 1 = (2 * b + 1) ^ 2 := by ring
  rw [e, Nat.sqrt_eq']
  omega

/-- Witness for C9 at `b = 4`: `nstate_to_nbase 40 = 4`. -/
theorem nstate_to_nbase_flipflop_witness :
    (0 : ℕ) < 4 ∧ nstate_to_nbase 40 = 4 :=
  ⟨by decide, nstate_to_nbase_flipflop 4 (by decide)⟩

/-- Claim C10: for every non-empty constant sample sequence `med_mad`
returns the constant as median and exactly `0` as scaled MAD, and the
normalization in `extract_read_data` divides by that zero MAD without
any guard (in the `ℚ` model the unguarded division appears literally as
`(x - c) / 0`; numpy emits non-finite floats there). -/
theorem med_mad_constant (n : ℕ) (c : ℚ) (h : 0 < n) :
    med_mad (List.replicate n c) Option.none = (c, 0) ∧
    extract_scaled (List.replicate n c) true =
      (List.replicate n c).map (fun x => (x - c) / 0) := by
  have h1 : npMedian (List.replicate n c) = c := npMedian_replicate n c h
  have h2 : (List.replicate n c).map (fun x => |x - c|) = List.replicate n 0 := by
    rw [List.map_replicate]
    simp
  have h3 : med_mad (List.replicate n c) Option.none = (c, 0) := by
    simp only [med_mad, Option.getD_none]
    rw [h1, h2, npMedian_replicate n 0 h]
    simp
  refine ⟨h3, ?_⟩
  simp only [extract_scaled, if_true, h3]

/-- Witness for C10 at the constant sequence `[5, 5, 5]`. -/
theorem med_mad_constant_witness :
    (0 : ℕ) < 3 ∧ med_mad (List.replicate 3 (5 : ℚ)) Option.none = (5, 0) :=
  ⟨by decide, (med_mad_constant 3 5 (by decide)).1⟩
